import Mathlib

/-!
Verification of the sqlbench core: the dialect adapters (`sqlbench/adapters.py`)
and the query/script execution and inline-editing logic of the Qt SQL tab
(`sqlbench/qt/tabs/sql_tab.py`).  Python strings are modelled as Lean `String`,
Python integers as `Int` (or `Nat` where the source only sees non-negative
page sizes and offsets), database rows as lists of integers, and the DB-API
driver as an oracle mapping each executed SQL text to either a result or an
error message.  Each definition is a direct translation of the cited source
function.
-/

namespace SqlBench

/-! ### Python string primitives

The source relies on `str.strip`, `str.upper`, `str.startswith`,
`str.endswith`, slicing, `str.split()` and `' '.join`.  They are modelled over
the character list of the string so that every definition reduces in the
kernel.  `Char.isWhitespace` covers the ASCII whitespace the repository's SQL
texts contain.  -/

/-- Python `str.strip()`: drop leading and trailing whitespace. -/
def py_strip (s : String) : String :=
  String.mk (((s.toList.dropWhile Char.isWhitespace).reverse.dropWhile
    Char.isWhitespace).reverse)

/-- Python `str.upper()` on ASCII text. -/
def py_upper (s : String) : String :=
  String.mk (s.toList.map Char.toUpper)

/-- Helper: does the character list start with the given pattern list? -/
def listStartsWith : List Char → List Char → Bool
  | _, [] => true
  | [], _ :: _ => false
  | c :: cs, p :: ps => c = p && listStartsWith cs ps

/-- Python `str.startswith(pat)`. -/
def py_startswith (s pat : String) : Bool :=
  listStartsWith s.toList pat.toList

/-- Python `str.endswith(pat)`. -/
def py_endswith (s pat : String) : Bool :=
  listStartsWith s.toList.reverse pat.toList.reverse

/-- Python `s[:-1]`: drop the last character. -/
def py_drop_last (s : String) : String :=
  String.mk s.toList.dropLast

/-- Python `s[:n]`: take the first `n` characters. -/
def py_take (n : Nat) (s : String) : String :=
  String.mk (s.toList.take n)

/-- Helper: does the character list contain the pattern as a contiguous sublist? -/
def listContainsSub : List Char → List Char → Bool
  | [], p => p.isEmpty
  | s@(_ :: rest), p => listStartsWith s p || listContainsSub rest p

/-- Python `pat in s` substring containment. -/
def py_contains (s pat : String) : Bool :=
  listContainsSub s.toList pat.toList

/-- Python `sql.split()` without arguments: split on whitespace runs,
discarding empty fields. -/
def py_split_ws (s : String) : List String :=
  ((s.toList.splitOnP Char.isWhitespace).map String.mk).filter (fun t => t ≠ "")

/-- Python `' '.join(sql.split())`, the whitespace normalisation used by
duplicate protection in `SQLTab._run_query`. -/
def py_normalize_ws (s : String) : String :=
  String.intercalate " " (py_split_ws s)

/-- Python `sql.replace('?', '%s')` as used by `SQLTab._generate_update_sql`:
the pattern is the single character `?`, so the replacement maps each such
character to the two characters `%s`. -/
def py_replace_qmark (s : String) : String :=
  String.mk (s.toList.flatMap fun c => if c = '?' then ['%', 's'] else [c])

/-! ### Trailing-terminator stripping

`adapters.py` (`add_pagination`, `get_count_sql`) and both workers in
`sql_tab.py` repeat the same loop:

    sql_stripped = sql.strip()
    while sql_stripped.endswith(';'):
        sql_stripped = sql_stripped[:-1].strip()
-/

/-- Fuel-indexed version of the `while sql_stripped.endswith(';')` loop; each
iteration removes at least one character, so the length of the input is
sufficient fuel. -/
def strip_semis_fuel : Nat → String → String
  | 0, s => s
  | n + 1, s =>
    if py_endswith s ";" then strip_semis_fuel n (py_strip (py_drop_last s))
    else s

/-- The `strip` + `while endswith(';')` idiom shared by the adapters and both
workers. -/
def strip_sql_terminators (s : String) : String :=
  strip_semis_fuel s.length (py_strip s)

/-! ### Statement splitter (`SQLEditor._split_statements`)

A linear scan over the text: a semicolon outside a single-quoted literal ends
the current statement (the semicolon is appended to the statement before it is
pushed), a doubled quote inside a literal is the SQL escape and does not close
the literal, and a non-empty remainder is pushed at the end of the scan. -/

/-- Core of `SQLEditor._split_statements`, scanning the character list with
the `in_string` flag and the reversed current statement accumulator.  The
second pattern is the doubled-quote SQL escape inside a literal, which the
source consumes in one step (`current.append("''"); i += 1`); a closing quote
is therefore only recognised in the catch-all case, when the next character is
not another quote. -/
def splitStatementsCore : List Char → Bool → List Char → List String
  | [], _, current =>
    if current.isEmpty then [] else [String.mk current.reverse]
  | '\'' :: '\'' :: rest, true, current =>
    splitStatementsCore rest true ('\'' :: '\'' :: current)
  | c :: rest, inString, current =>
    if c = '\'' && !inString then
      splitStatementsCore rest true (c :: current)
    else if c = '\'' && inString then
      splitStatementsCore rest false (c :: current)
    else if c = ';' && !inString then
      String.mk (';' :: current).reverse :: splitStatementsCore rest inString []
    else
      splitStatementsCore rest inString (c :: current)

/-- `SQLEditor._split_statements(text)`. -/
def splitStatements (text : String) : List String :=
  splitStatementsCore text.toList false []

/-! ### Dialect adapters (`sqlbench/adapters.py`)

The registry holds four adapters: `ibmi` and `ibmi_db` (both overriding
`add_pagination` with the identical OFFSET/FETCH body), and `mysql` and
`postgresql` (both inheriting the base `DBAdapter.add_pagination`).
`get_count_sql` is defined once on the base class and inherited by all four.
Page sizes and offsets are the non-negative integers the tab passes in. -/

/-- The four registered database type keys (`ADAPTERS` in `adapters.py`). -/
inductive DbType
  | ibmi
  | ibmi_db
  | mysql
  | postgresql
deriving DecidableEq

/-- `DBAdapter.add_pagination` (base class, inherited by the MySQL and
PostgreSQL adapters): strip terminators, then `LIMIT m [OFFSET n]`. -/
def DBAdapter_add_pagination (sql : String) (limit offset : Nat) : String :=
  if 0 < offset then
    strip_sql_terminators sql ++ " LIMIT " ++ toString limit ++ " OFFSET " ++ toString offset
  else
    strip_sql_terminators sql ++ " LIMIT " ++ toString limit

/-- `IBMiAdapter.add_pagination`: strip terminators, then OFFSET/FETCH. -/
def IBMiAdapter_add_pagination (sql : String) (limit offset : Nat) : String :=
  if 0 < offset then
    strip_sql_terminators sql ++ " OFFSET " ++ toString offset
      ++ " ROWS FETCH FIRST " ++ toString limit ++ " ROWS ONLY"
  else
    strip_sql_terminators sql ++ " FETCH FIRST " ++ toString limit ++ " ROWS ONLY"

/-- `IBMiDBAdapter.add_pagination`: textually identical to the
`IBMiAdapter` override, duplicated in the source. -/
def IBMiDBAdapter_add_pagination (sql : String) (limit offset : Nat) : String :=
  if 0 < offset then
    strip_sql_terminators sql ++ " OFFSET " ++ toString offset
      ++ " ROWS FETCH FIRST " ++ toString limit ++ " ROWS ONLY"
  else
    strip_sql_terminators sql ++ " FETCH FIRST " ++ toString limit ++ " ROWS ONLY"

/-- Dynamic dispatch of `add_pagination` through the adapter registry. -/
def add_pagination : DbType → String → Nat → Nat → String
  | DbType.ibmi => IBMiAdapter_add_pagination
  | DbType.ibmi_db => IBMiDBAdapter_add_pagination
  | DbType.mysql => DBAdapter_add_pagination
  | DbType.postgresql => DBAdapter_add_pagination

/-- `DBAdapter.get_count_sql`: wrap the stripped statement in a COUNT
subquery. -/
def get_count_sql (sql : String) : String :=
  "SELECT COUNT(*) FROM (" ++ strip_sql_terminators sql ++ ") AS count_query"

/-- Dispatch of `get_count_sql`: no adapter overrides it, so every dialect
uses the base-class implementation. -/
def adapter_get_count_sql : DbType → String → String
  | DbType.ibmi => get_count_sql
  | DbType.ibmi_db => get_count_sql
  | DbType.mysql => get_count_sql
  | DbType.postgresql => get_count_sql

/-! ### Column display size heuristics

A cursor-description entry is modelled as a list of optional integers; only
the length of the tuple and the fields at indices 2 (display size), 3
(internal size) and 4 (precision) are read by the source.  Python `x or y`
on integers treats `None` and `0` as falsy. -/

/-- Python `a or b` for integers already defaulted from `None`: `0` is falsy. -/
def pyOrInt (a b : Int) : Int := if a = 0 then b else a

/-- Read field `i` of the descriptor with the `col_info[i] or 0` defaulting
applied (`None` becomes `0`; a present integer passes through). -/
def colField (ci : List (Option Int)) (i : Nat) : Int :=
  (ci.getD i none).getD 0

/-- `DBAdapter.get_column_display_size` (base class, inherited by both IBM i
adapters): `display_size or internal_size or precision or 10`, with 10 for a
missing or short descriptor. -/
def DBAdapter_get_column_display_size (ci : List (Option Int)) : Int :=
  if ci.length < 5 then 10
  else pyOrInt (colField ci 2) (pyOrInt (colField ci 3) (pyOrInt (colField ci 4) 10))

/-- `MySQLAdapter.get_column_display_size`: prefers the internal size, caps at
255, and falls back to 20 when the combined size is not positive. -/
def MySQLAdapter_get_column_display_size (ci : List (Option Int)) : Int :=
  if ci.length < 5 then 10
  else
    if 0 < pyOrInt (colField ci 3) (pyOrInt (colField ci 2) (colField ci 4)) then
      min (pyOrInt (colField ci 3) (pyOrInt (colField ci 2) (colField ci 4))) 255
    else 20

/-- `PostgreSQLAdapter.get_column_display_size`: 50 for a negative internal
size (unlimited-length types), otherwise display size, then precision, then
internal size, capped at 255 with fallback 20. -/
def PostgreSQLAdapter_get_column_display_size (ci : List (Option Int)) : Int :=
  if ci.length < 5 then 10
  else if colField ci 3 < 0 then 50
  else
    if 0 < pyOrInt (colField ci 2) (pyOrInt (colField ci 4) (colField ci 3)) then
      min (pyOrInt (colField ci 2) (pyOrInt (colField ci 4) (colField ci 3))) 255
    else 20

/-- Dispatch of `get_column_display_size`: the IBM i adapters inherit the
base implementation; MySQL and PostgreSQL override it. -/
def get_column_display_size : DbType → List (Option Int) → Int
  | DbType.ibmi => DBAdapter_get_column_display_size
  | DbType.ibmi_db => DBAdapter_get_column_display_size
  | DbType.mysql => MySQLAdapter_get_column_display_size
  | DbType.postgresql => PostgreSQLAdapter_get_column_display_size

/-! ### The adapters module namespace

The top-level names bound in `sqlbench/adapters.py`, in definition order:
the imports, the environment set-up helper, the five classes, the registry
and the registry accessors.  A `from ...adapters import X` statement succeeds
exactly when `X` is among these names and raises `ImportError` otherwise. -/

/-- Top-level names defined by the `sqlbench.adapters` module. -/
def adaptersModuleNames : List String :=
  ["os", "ABC", "abstractmethod", "Path", "_setup_ibm_db_environment",
   "DBAdapter", "IBMiAdapter", "IBMiDBAdapter", "MySQLAdapter",
   "PostgreSQLAdapter", "ADAPTERS", "get_adapter", "get_adapter_choices",
   "get_unavailable_adapters"]

/-! ### DB-API driver oracle

The workers observe the driver only through `connect`, `cursor.execute`,
`cursor.description`, `cursor.fetchall/fetchone`, `cursor.rowcount`,
`commit` and `rollback`.  A driver behaviour is an oracle mapping each
executed SQL text to either an error message (the raised exception) or an
execution result; `connect` either succeeds or raises.  Row values are
modelled as integers (the workers only ever read the scalar of a COUNT row
and the number of fetched rows). -/

/-- Result of a successful `cursor.execute`: whether `cursor.description` is
truthy, the rows `fetchall` would return, and `cursor.rowcount`. -/
structure ExecResult where
  hasDescription : Bool
  rows : List (List Int)
  rowcount : Int
deriving DecidableEq

/-- A driver behaviour: the outcome of opening a connection and of each
`cursor.execute` call, keyed by the executed SQL text. -/
structure DbOracle where
  connect : Except String Unit
  exec : String → Except String ExecResult

/-- Modelled from the spec: `connect_from_info(adapter, conn_info)` is
imported by every worker from `sqlbench.adapters` but is not defined there
(see `adaptersModuleNames`).  Per §4.2/§6 of the spec it is the
connection-opening step: it builds a driver connection from the adapter and
the connection profile and propagates the driver's connection error
unchanged.  It is modelled as the oracle's `connect` outcome. -/
def connect_from_info (oracle : DbOracle) : Except String Unit :=
  oracle.connect

/-- Connection-level side effects observed by the Script Runner. -/
inductive DbEvent
  | execEv (sql : String)
  | commitEv
  | rollbackEv
deriving DecidableEq

/-! ### Query executor (`QueryWorker` in `sql_tab.py`)

`run` is translated as a function of the request configuration, the driver
oracle and the cancellation flag (the flag is set once by `cancel()` and
never cleared, so one boolean models every poll of `self._cancelled`).  The
output records the ordered SQL texts passed to `cursor.execute` and the
signals emitted (`finished`, `error`, `row_count`); wall-clock timings are
not modelled. -/

/-- Constructor arguments of `QueryWorker` (`conn_info` is consumed only by
the connection step, which the oracle models). -/
structure QueryConfig where
  sql : String
  adapter : Option DbType
  limit : Nat
  offset : Nat
  fetchAll : Bool
  runCount : Bool

/-- Signals a `QueryWorker` emitted: `finished` carries the fetched rows,
the truthiness of `cursor.description` and the reported total row count. -/
structure QuerySignals where
  finished : Option (List (List Int) × Bool × Int)
  errorOut : Option String
  rowCountOut : Option Int
deriving DecidableEq

/-- Observable outcome of one `QueryWorker.run` invocation. -/
structure QueryRunOutput where
  importFailed : Bool
  trace : List String
  signals : QuerySignals
deriving DecidableEq

/-- `QueryWorker._has_limit_clause(sql_upper)`. -/
def has_limit_clause (sqlUpper : String) : Bool :=
  py_contains sqlUpper "FETCH FIRST" || py_contains sqlUpper "FETCH NEXT"
    || py_contains sqlUpper "LIMIT " || py_contains sqlUpper "OFFSET "

/-- The count pre-flight guard of `QueryWorker.run`:
`is_select and self.run_count and self.adapter and not self._has_limit_clause(sql_upper)`. -/
def doCountFlag (cfg : QueryConfig) (sqlUpper : String) : Bool :=
  py_startswith sqlUpper "SELECT" && cfg.runCount && cfg.adapter.isSome
    && !has_limit_clause sqlUpper

/-- The count pre-flight try-block: execute the COUNT statement and read
`fetchone()[0]`; any exception (including a missing or empty row) is
swallowed and leaves the total at 0. -/
def countTotal (oracle : DbOracle) (countSql : String) : Int :=
  match oracle.exec countSql with
  | Except.error _ => 0
  | Except.ok r =>
    match r.rows with
    | [] => 0
    | row :: _ =>
      match row with
      | [] => 0
      | v :: _ => v

/-- Lines 191-197 of `sql_tab.py`: paginate only when the statement is a
SELECT, an adapter is present, `fetch_all` is off and no limiting clause is
already present; otherwise execute the stripped statement verbatim. -/
def buildExecutedSql (isSelect : Bool) (adapter : Option DbType)
    (fetchAll : Bool) (sqlStripped sqlUpper : String) (limit offset : Nat) :
    String :=
  match adapter with
  | some t =>
    if isSelect && !fetchAll && !has_limit_clause sqlUpper then
      add_pagination t sqlStripped limit offset
    else sqlStripped
  | none => sqlStripped

/-- The COUNT pre-flight statement of a request:
`self.adapter.get_count_sql(sql_stripped)`. -/
def countSqlOf (cfg : QueryConfig) : String :=
  get_count_sql (strip_sql_terminators cfg.sql)

/-- The SQL text `QueryWorker.run` passes to the main `cursor.execute`:
`executed_sql` as built at lines 191-197. -/
def executedSqlOf (cfg : QueryConfig) : String :=
  buildExecutedSql
    (py_startswith (py_upper (strip_sql_terminators cfg.sql)) "SELECT")
    cfg.adapter cfg.fetchAll (strip_sql_terminators cfg.sql)
    (py_upper (strip_sql_terminators cfg.sql)) cfg.limit cfg.offset

/-- The try-block of `QueryWorker.run` (lines 166-233), entered once
`connect_from_info` has resolved; the connection step itself is the oracle's
`connect` outcome. -/
def queryWorkerRunBody (cfg : QueryConfig) (oracle : DbOracle)
    (cancelled : Bool) : QueryRunOutput :=
  match connect_from_info oracle with
  | Except.error e =>
    { importFailed := false, trace := [],
      signals := { finished := none,
                   errorOut := if cancelled then none else some e,
                   rowCountOut := none } }
  | Except.ok _ =>
    let doCount := doCountFlag cfg (py_upper (strip_sql_terminators cfg.sql))
    let totalRows : Int := if doCount then countTotal oracle (countSqlOf cfg) else 0
    let trace0 := if doCount then [countSqlOf cfg] else []
    if doCount && cancelled then
      { importFailed := false, trace := trace0,
        signals := { finished := none, errorOut := none, rowCountOut := none } }
    else
      match oracle.exec (executedSqlOf cfg) with
      | Except.error e =>
        { importFailed := false, trace := trace0 ++ [executedSqlOf cfg],
          signals := { finished := none,
                       errorOut := if cancelled then none else some e,
                       rowCountOut := none } }
      | Except.ok r =>
        if cancelled then
          { importFailed := false, trace := trace0 ++ [executedSqlOf cfg],
            signals := { finished := none, errorOut := none, rowCountOut := none } }
        else if r.hasDescription then
          { importFailed := false, trace := trace0 ++ [executedSqlOf cfg],
            signals := { finished := some (r.rows, true,
                           if totalRows = 0 then (r.rows.length : Int) else totalRows),
                         errorOut := none, rowCountOut := none } }
        else
          { importFailed := false, trace := trace0 ++ [executedSqlOf cfg],
            signals := { finished := some ([], false, totalRows),
                         errorOut := none, rowCountOut := some r.rowcount } }

/-- `QueryWorker.run`: the first statement is
`from ...adapters import connect_from_info`, placed before the try/except
block; when the name is missing from the adapters module the ImportError
escapes `run` and no signal is ever emitted. -/
def queryWorkerRun (cfg : QueryConfig) (oracle : DbOracle)
    (cancelled : Bool) : QueryRunOutput :=
  if adaptersModuleNames.contains "connect_from_info" then
    queryWorkerRunBody cfg oracle cancelled
  else
    { importFailed := true, trace := [],
      signals := { finished := none, errorOut := none, rowCountOut := none } }

/-! ### Script runner (`ScriptWorker` in `sql_tab.py`) -/

/-- One entry of the per-statement result list built by `ScriptWorker.run`. -/
structure StmtResult where
  stmt : Nat
  sqlPreview : String
  fullSql : String
  status : String
  rowCount : Int
  success : Bool
  errMsg : Option String
deriving DecidableEq

/-- `stmt_stripped[:200] + ('...' if len(stmt_stripped) > 200 else '')`. -/
def previewOf (t : String) : String :=
  py_take 200 t ++ (if 200 < t.length then "..." else "")

/-- The status classification by statement verb for a statement without a
result set. -/
def statusByVerb (up : String) (rc : Int) : String :=
  if py_startswith up "INSERT" then toString rc ++ " row(s) inserted"
  else if py_startswith up "UPDATE" then toString rc ++ " row(s) updated"
  else if py_startswith up "DELETE" then toString rc ++ " row(s) deleted"
  else "OK (" ++ toString rc ++ " row(s) affected)"

/-- Successful branch of the per-statement try-block: a result set is fetched
and counted; otherwise the affected-row count is classified by verb and the
statement is committed. -/
def scriptOkOutcome (i : Nat) (t : String) (r : ExecResult) :
    StmtResult × List DbEvent :=
  if r.hasDescription then
    ({ stmt := i + 1, sqlPreview := previewOf t, fullSql := t,
       status := toString r.rows.length ++ " row(s) returned",
       rowCount := (r.rows.length : Int), success := true, errMsg := none },
     [DbEvent.execEv t])
  else
    ({ stmt := i + 1, sqlPreview := previewOf t, fullSql := t,
       status := statusByVerb (py_upper t)
         (if 0 ≤ r.rowcount then r.rowcount else 0),
       rowCount := if 0 ≤ r.rowcount then r.rowcount else 0,
       success := true, errMsg := none },
     [DbEvent.execEv t, DbEvent.commitEv])

/-- Failing branch of the per-statement try-block: the result is marked
failed and the statement is rolled back. -/
def scriptErrOutcome (i : Nat) (t : String) (e : String) :
    StmtResult × List DbEvent :=
  ({ stmt := i + 1, sqlPreview := previewOf t, fullSql := t,
     status := "ERROR", rowCount := 0, success := false, errMsg := some e },
   [DbEvent.execEv t, DbEvent.rollbackEv])

/-- One iteration of the `for i, stmt in enumerate(self.statements)` loop:
`none` when the statement is skipped as empty after stripping. -/
def scriptStatementResult (oracle : DbOracle) (i : Nat) (s : String) :
    Option (StmtResult × List DbEvent) :=
  if py_strip s = "" then none
  else if strip_sql_terminators (py_strip s) = "" then none
  else
    match oracle.exec (strip_sql_terminators (py_strip s)) with
    | Except.ok r => some (scriptOkOutcome i (strip_sql_terminators (py_strip s)) r)
    | Except.error e => some (scriptErrOutcome i (strip_sql_terminators (py_strip s)) e)

/-- The statement loop of `ScriptWorker.run`; `i` is the enumeration index,
and a set cancellation flag breaks out before the next statement starts. -/
def scriptLoop (oracle : DbOracle) (cancelled : Bool) :
    Nat → List String → List StmtResult × List DbEvent
  | _, [] => ([], [])
  | i, s :: rest =>
    if cancelled then ([], [])
    else
      match scriptStatementResult oracle i s with
      | none => scriptLoop oracle cancelled (i + 1) rest
      | some (r, evs) =>
        let tail := scriptLoop oracle cancelled (i + 1) rest
        (r :: tail.1, evs ++ tail.2)

/-- Observable outcome of one `ScriptWorker.run` invocation. -/
structure ScriptRunOutput where
  importFailed : Bool
  events : List DbEvent
  allFinished : Option (List StmtResult)
  errorOut : Option String
deriving DecidableEq

/-- The try-block of `ScriptWorker.run` (lines 256-333), entered once
`connect_from_info` has resolved. -/
def scriptWorkerRunBody (oracle : DbOracle) (stmts : List String)
    (cancelled : Bool) : ScriptRunOutput :=
  match connect_from_info oracle with
  | Except.error e =>
    { importFailed := false, events := [], allFinished := none,
      errorOut := if cancelled then none else some e }
  | Except.ok _ =>
    let run := scriptLoop oracle cancelled 0 stmts
    { importFailed := false, events := run.2,
      allFinished := if cancelled then none else some run.1,
      errorOut := none }

/-- `ScriptWorker.run`: as in `QueryWorker.run`, the first statement is
`from ...adapters import connect_from_info` before the try/except block. -/
def scriptWorkerRun (oracle : DbOracle) (stmts : List String)
    (cancelled : Bool) : ScriptRunOutput :=
  if adaptersModuleNames.contains "connect_from_info" then
    scriptWorkerRunBody oracle stmts cancelled
  else
    { importFailed := true, events := [], allFinished := none, errorOut := none }

/-! ### Inline editing (`SQLTab._generate_update_sql`)

`_columns` are the result column names, `_pk_indices` the indices of the
primary-key columns inside the result columns, and `_original_values[row]`
the row values snapshotted at load time (every cell stored as a string, with
`None` rendered as the empty string).  The modified-cells map for a row is an
association list in insertion order, mirroring the Python dict. -/

/-- The editing state consulted by `_generate_update_sql`. -/
structure EditState where
  columns : List String
  pkIndices : List Nat
  editSchema : Option String
  editTable : String
  dbType : String

/-- `SQLTab._generate_update_sql(changes, original_values)`: builds
`UPDATE <table> SET c = ?, ... WHERE pk = ? AND ...` with SET parameters from
the changed cells (empty string becoming NULL) followed by the original
primary-key values, switching the placeholder to `%s` for the MySQL and
PostgreSQL dialects.  Indexing into `columns` and `original_values` is
defaulted; the caller only ever passes in-range column indices. -/
def generate_update_sql (st : EditState) (changes : List (Nat × String))
    (originalValues : List String) :
    Option (String × List (Option String)) :=
  if changes = [] ∨ originalValues = [] then none
  else
    some (
      (fun raw =>
        if st.dbType = "mysql" ∨ st.dbType = "postgresql" then
          py_replace_qmark raw
        else raw)
      ("UPDATE "
        ++ (match st.editSchema with
            | some sch => sch ++ "." ++ st.editTable
            | none => st.editTable)
        ++ " SET "
        ++ String.intercalate ", "
             (changes.map fun c => st.columns.getD c.1 "" ++ " = ?")
        ++ " WHERE "
        ++ String.intercalate " AND "
             (st.pkIndices.map fun i => st.columns.getD i "" ++ " = ?")),
      (changes.map fun c => if c.2 = "" then none else some c.2)
        ++ st.pkIndices.map fun i => some (originalValues.getD i ""))

/-! ### Destructive-statement gate (`SQLTab._run_query`, lines 1241-1285)

The gate is driven by the connection profile (`is_production` and
`duplicate_protection` flags, absent when the profile lookup fails) and by
the answers the user would give to the two confirmation dialogs.  The
outcome records whether execution proceeds, the updated rolling history of
destructive statements, and which confirmations were requested. -/

/-- The destructive leading keywords checked by `_run_query`. -/
def destructiveKeywords : List String :=
  ["UPDATE", "DELETE", "DROP", "TRUNCATE", "ALTER"]

/-- `sql.strip().upper()` starts with one of the destructive keywords. -/
def is_destructive_sql (sql : String) : Bool :=
  destructiveKeywords.any fun kw => py_startswith (py_upper (py_strip sql)) kw

/-- Observable outcome of the destructive-statement gate. -/
structure GateOutcome where
  proceeds : Bool
  history : List String
  productionPrompted : Bool
  duplicatePrompted : Bool
deriving DecidableEq

/-- The production-mode and duplicate-protection gate at the top of
`SQLTab._run_query`; `connInfo` is `some (is_production, duplicate_protection)`
when the profile lookup succeeds, and `prodConfirm`/`dupConfirm` are the
answers to the two warning dialogs.  The history is appended only once the
statement is about to run, then trimmed from the front to 10 entries. -/
def run_query_gate (sql : String) (connInfo : Option (Bool × Bool))
    (recent : List String) (prodConfirm dupConfirm : Bool) : GateOutcome :=
  if is_destructive_sql sql then
    match connInfo with
    | some (isProd, dupProt) =>
      if isProd && !prodConfirm then
        { proceeds := false, history := recent,
          productionPrompted := true, duplicatePrompted := false }
      else if dupProt then
        if recent.contains (py_normalize_ws sql) && !dupConfirm then
          { proceeds := false, history := recent,
            productionPrompted := isProd, duplicatePrompted := true }
        else
          { proceeds := true,
            history :=
              if 10 < (recent ++ [py_normalize_ws sql]).length then
                (recent ++ [py_normalize_ws sql]).drop 1
              else recent ++ [py_normalize_ws sql],
            productionPrompted := isProd,
            duplicatePrompted := recent.contains (py_normalize_ws sql) }
      else
        { proceeds := true, history := recent,
          productionPrompted := isProd, duplicatePrompted := false }
    | none =>
      { proceeds := true, history := recent,
        productionPrompted := false, duplicatePrompted := false }
  else
    { proceeds := true, history := recent,
      productionPrompted := false, duplicatePrompted := false }

/-! ### Concrete witness drivers and requests -/

/-- C7 witness oracle: connects and answers every statement with an empty
result set. -/
def c7Oracle : DbOracle :=
  { connect := Except.ok (),
    exec := fun _ => Except.ok { hasDescription := true, rows := [], rowcount := 0 } }

/-- C7 witness request: a SELECT that already carries a LIMIT clause. -/
def c7Config : QueryConfig :=
  { sql := "SELECT * FROM t LIMIT 5;", adapter := some DbType.mysql,
    limit := 100, offset := 0, fetchAll := false, runCount := true }

/-- C6 witness oracle: the COUNT pre-flight raises, every other statement
returns a two-row result set. -/
def c6Oracle : DbOracle :=
  { connect := Except.ok (),
    exec := fun s =>
      if s = "SELECT COUNT(*) FROM (SELECT * FROM t) AS count_query" then
        Except.error "count failed"
      else Except.ok { hasDescription := true, rows := [[7], [8]], rowcount := -1 } }

/-- C6 witness request: a plain SELECT with counting enabled. -/
def c6Config : QueryConfig :=
  { sql := "SELECT * FROM t;", adapter := some DbType.postgresql,
    limit := 100, offset := 0, fetchAll := false, runCount := true }

/-- C3 witness oracle: the `bad` insert raises a duplicate-key error, every
other statement succeeds with one affected row. -/
def c3Oracle : DbOracle :=
  { connect := Except.ok (),
    exec := fun s =>
      if s = "INSERT INTO t VALUES (bad)" then Except.error "duplicate key"
      else Except.ok { hasDescription := false, rows := [], rowcount := 1 } }

/-! ## Claims -/

/-- C1: `QueryWorker.run` and `ScriptWorker.run` both begin with
`from ...adapters import connect_from_info` before their try/except blocks,
but the adapters module defines no such name, so every invocation raises
ImportError before any connection is attempted and emits neither the
finished/all_finished signal nor the error signal. -/
theorem c1_connect_from_info_missing :
    adaptersModuleNames.contains "connect_from_info" = false
    ∧ (∀ (cfg : QueryConfig) (oracle : DbOracle) (cancelled : Bool),
        queryWorkerRun cfg oracle cancelled =
          { importFailed := true, trace := [],
            signals := { finished := none, errorOut := none, rowCountOut := none } })
    ∧ (∀ (oracle : DbOracle) (stmts : List String) (cancelled : Bool),
        scriptWorkerRun oracle stmts cancelled =
          { importFailed := true, events := [], allFinished := none,
            errorOut := none }) := by
  have h : adaptersModuleNames.contains "connect_from_info" = false := by decide
  refine ⟨h, ?_, ?_⟩
  · intro cfg oracle cancelled
    simp only [queryWorkerRun, h, Bool.false_eq_true, if_false]
  · intro oracle stmts cancelled
    simp only [scriptWorkerRun, h, Bool.false_eq_true, if_false]

/-- C2 counterexample: the splitter keeps the terminating semicolon on each
segment and pushes no trailing empty segment, so the claimed output list
`["SELECT 'a;b' FROM t", " SELECT 1", ""]` is not what the code returns. -/
theorem c2_split_counterexample :
    ¬ (splitStatements "SELECT 'a;b' FROM t; SELECT 1;" =
        ["SELECT 'a;b' FROM t", " SELECT 1", ""]) := by
  decide

/-- C2 (amended): the splitter applied to `SELECT 'a;b' FROM t; SELECT 1;`
returns exactly two segments, each including its terminating semicolon, with
no trailing empty segment, and the semicolon inside the quoted literal does
not split the statement. -/
theorem c2_split_amended :
    splitStatements "SELECT 'a;b' FROM t; SELECT 1;" =
      ["SELECT 'a;b' FROM t;", " SELECT 1;"] := by
  decide

/-- C5: every adapter first strips trailing terminators and then appends its
dialect's limiting syntax — OFFSET/FETCH for both IBM i adapters (plain
FETCH FIRST when the offset is 0) and LIMIT/OFFSET for MySQL and PostgreSQL
(plain LIMIT when the offset is 0); the two closed conjuncts exercise the
terminator stripping concretely. -/
theorem c5_add_pagination_dialects :
    ∀ (sql : String) (limit offset : Nat),
      (add_pagination DbType.ibmi sql limit offset =
        if 0 < offset then
          strip_sql_terminators sql ++ " OFFSET " ++ toString offset
            ++ " ROWS FETCH FIRST " ++ toString limit ++ " ROWS ONLY"
        else
          strip_sql_terminators sql ++ " FETCH FIRST " ++ toString limit
            ++ " ROWS ONLY")
      ∧ (add_pagination DbType.ibmi_db sql limit offset =
          add_pagination DbType.ibmi sql limit offset)
      ∧ (add_pagination DbType.mysql sql limit offset =
        if 0 < offset then
          strip_sql_terminators sql ++ " LIMIT " ++ toString limit
            ++ " OFFSET " ++ toString offset
        else
          strip_sql_terminators sql ++ " LIMIT " ++ toString limit)
      ∧ (add_pagination DbType.postgresql sql limit offset =
          add_pagination DbType.mysql sql limit offset)
      ∧ add_pagination DbType.ibmi " SELECT * FROM t ;; " 10 0 =
          "SELECT * FROM t FETCH FIRST 10 ROWS ONLY"
      ∧ add_pagination DbType.mysql " SELECT * FROM t; " 10 5 =
          "SELECT * FROM t LIMIT 10 OFFSET 5" := by
  intro sql limit offset
  exact ⟨rfl, rfl, rfl, rfl, by decide, by decide⟩

/-- C8: every dialect adapter inherits the base `get_count_sql`, which wraps
the whitespace- and terminator-stripped statement exactly as
`SELECT COUNT(*) FROM (<stripped>) AS count_query`; in particular the claim's
concrete example holds for all four adapters. -/
theorem c8_count_sql_exact_wrapping :
    ∀ (t : DbType) (sql : String),
      adapter_get_count_sql t sql =
        "SELECT COUNT(*) FROM (" ++ strip_sql_terminators sql ++ ") AS count_query"
      ∧ adapter_get_count_sql t "SELECT * FROM t WHERE x=1" =
        "SELECT COUNT(*) FROM (SELECT * FROM t WHERE x=1) AS count_query" := by
  intro t sql
  cases t <;> exact ⟨rfl, by decide⟩

/-- C9 counterexample: for a complete descriptor with internal size `-1` the
base adapter used by the IBM i dialects returns `-1` itself and the MySQL
adapter returns its fallback `20`, not the claimed `50`; and with every field
absent the MySQL adapter returns `20`, not the claimed default `10`. -/
theorem c9_display_size_counterexample :
    get_column_display_size DbType.ibmi [none, none, none, some (-1), none] = -1
    ∧ get_column_display_size DbType.mysql [none, none, none, some (-1), none] = 20
    ∧ get_column_display_size DbType.mysql [none, none, none, none, none] = 20
    ∧ ¬ ((-1 : Int) = 50) ∧ ¬ ((20 : Int) = 50) ∧ ¬ ((20 : Int) = 10) := by
  decide

/-- C9 (amended): each adapter combines display size, internal size and
precision into one best-guess width; every adapter returns 10 for a missing
or short descriptor; the base implementation shared by the IBM i adapters
chains display size, internal size, precision with default 10 and no
negative-size handling; only the PostgreSQL adapter returns the fixed
fallback 50 for a negative internal size; the MySQL adapter prefers the
internal size, caps at 255 and falls back to 20. -/
theorem c9_display_size_amended :
    (∀ (t : DbType) (ci : List (Option Int)), ci.length < 5 →
        get_column_display_size t ci = 10)
    ∧ (∀ ci : List (Option Int), 5 ≤ ci.length →
        get_column_display_size DbType.ibmi ci =
          pyOrInt (colField ci 2)
            (pyOrInt (colField ci 3) (pyOrInt (colField ci 4) 10))
        ∧ get_column_display_size DbType.ibmi_db ci =
            get_column_display_size DbType.ibmi ci)
    ∧ (∀ ci : List (Option Int), 5 ≤ ci.length → colField ci 3 < 0 →
        get_column_display_size DbType.postgresql ci = 50)
    ∧ (∀ ci : List (Option Int), 5 ≤ ci.length →
        get_column_display_size DbType.mysql ci =
          if 0 < pyOrInt (colField ci 3) (pyOrInt (colField ci 2) (colField ci 4))
          then min (pyOrInt (colField ci 3) (pyOrInt (colField ci 2) (colField ci 4))) 255
          else 20) := by
  refine ⟨?_, ?_, ?_, ?_⟩
  · intro t ci h
    cases t <;>
      simp [get_column_display_size, DBAdapter_get_column_display_size,
        MySQLAdapter_get_column_display_size,
        PostgreSQLAdapter_get_column_display_size, h]
  · intro ci h
    have h5 : ¬ ci.length < 5 := Nat.not_lt.mpr h
    exact ⟨by simp [get_column_display_size, DBAdapter_get_column_display_size, h5], rfl⟩
  · intro ci h hneg
    have h5 : ¬ ci.length < 5 := Nat.not_lt.mpr h
    simp [get_column_display_size, PostgreSQLAdapter_get_column_display_size, h5, hneg]
  · intro ci h
    have h5 : ¬ ci.length < 5 := Nat.not_lt.mpr h
    simp [get_column_display_size, MySQLAdapter_get_column_display_size, h5]

/-- C9 witness: the amended behaviours at concrete descriptors — a short
descriptor yields 10, PostgreSQL yields 50 on a negative internal size, and
the base adapter picks the display size 12 when it is present. -/
theorem c9_display_size_amended_witness :
    get_column_display_size DbType.mysql [] = 10
    ∧ get_column_display_size DbType.postgresql [none, none, none, some (-3), none] = 50
    ∧ get_column_display_size DbType.ibmi [none, none, some 12, some 30, some 5] = 12 := by
  refine ⟨?_, ?_, ?_⟩
  · exact c9_display_size_amended.1 DbType.mysql [] (by decide)
  · exact c9_display_size_amended.2.2.1 [none, none, none, some (-3), none]
      (by decide) (by decide)
  · have h := (c9_display_size_amended.2.1 [none, none, some 12, some 30, some 5]
      (by decide)).1
    rw [h]; decide

/-- C4: for result columns `a, b, c` with composite primary key indices
`(0, 1)` and exactly the cell `c` modified, `_generate_update_sql` produces
`UPDATE t SET c = ? WHERE a = ? AND b = ?` with parameters
`[new_c, original_a, original_b]` in that order, translating an empty-string
input to NULL and substituting `%s` for `?` exactly when the dialect is
MySQL or PostgreSQL. -/
theorem c4_composite_pk_update_generation :
    ∀ (newC origA origB origC dbType : String),
      generate_update_sql
        { columns := ["a", "b", "c"], pkIndices := [0, 1], editSchema := none,
          editTable := "t", dbType := dbType }
        [(2, newC)] [origA, origB, origC] =
      some
        ((if dbType = "mysql" ∨ dbType = "postgresql" then
            "UPDATE t SET c = %s WHERE a = %s AND b = %s"
          else "UPDATE t SET c = ? WHERE a = ? AND b = ?"),
         [(if newC = "" then none else some newC), some origA, some origB]) := by
  intro newC origA origB origC dbType
  by_cases h : dbType = "mysql" ∨ dbType = "postgresql"
  · simp only [generate_update_sql, h, or_self, ite_true, ite_false]
    rfl
  · simp only [generate_update_sql, h, or_self, ite_true, ite_false]
    rfl

/-- Helper: the trace of a connected, uncancelled query run is the optional
COUNT pre-flight followed by the main executed statement. -/
theorem queryWorkerRunBody_trace (cfg : QueryConfig) (oracle : DbOracle)
    (hc : oracle.connect = Except.ok ()) :
    (queryWorkerRunBody cfg oracle false).trace =
      (if doCountFlag cfg (py_upper (strip_sql_terminators cfg.sql))
       then [countSqlOf cfg] else []) ++ [executedSqlOf cfg] := by
  simp only [queryWorkerRunBody, connect_from_info, hc, Bool.and_false,
    Bool.false_eq_true, if_false]
  cases hE : oracle.exec (executedSqlOf cfg) with
  | error e => simp
  | ok r => cases hD : r.hasDescription <;> simp [hD]

/-- C7: whenever the stripped statement's uppercased text already contains a
limiting-clause token, or `fetch_all` is requested, or the statement is not a
SELECT, the pagination guard is a no-op passthrough — the main executed SQL
is the terminator-stripped statement verbatim, and it is the last statement
the worker passes to the driver. -/
theorem c7_verbatim_when_guard_fails
    (cfg : QueryConfig) (oracle : DbOracle)
    (hc : oracle.connect = Except.ok ())
    (h : has_limit_clause (py_upper (strip_sql_terminators cfg.sql)) = true
        ∨ cfg.fetchAll = true
        ∨ py_startswith (py_upper (strip_sql_terminators cfg.sql)) "SELECT" = false) :
    executedSqlOf cfg = strip_sql_terminators cfg.sql
    ∧ (queryWorkerRunBody cfg oracle false).trace.getLast?
      = some (strip_sql_terminators cfg.sql) := by
  have hexe : executedSqlOf cfg = strip_sql_terminators cfg.sql := by
    unfold executedSqlOf buildExecutedSql
    cases hA : cfg.adapter with
    | none => rfl
    | some t =>
      have hguard : (py_startswith (py_upper (strip_sql_terminators cfg.sql)) "SELECT"
          && !cfg.fetchAll
          && !has_limit_clause (py_upper (strip_sql_terminators cfg.sql))) = false := by
        rcases h with h | h | h <;> simp [h]
      simp [hguard]
  refine ⟨hexe, ?_⟩
  rw [queryWorkerRunBody_trace cfg oracle hc, hexe]
  cases hb : doCountFlag cfg (py_upper (strip_sql_terminators cfg.sql)) <;> simp

/-- C7 witness: the worker executes `SELECT * FROM t LIMIT 5` verbatim. -/
theorem c7_verbatim_when_guard_fails_witness :
    executedSqlOf c7Config = "SELECT * FROM t LIMIT 5"
    ∧ (queryWorkerRunBody c7Config c7Oracle false).trace.getLast?
      = some "SELECT * FROM t LIMIT 5" := by
  have h := c7_verbatim_when_guard_fails c7Config c7Oracle rfl (Or.inl (by decide))
  refine ⟨?_, ?_⟩
  · rw [h.1]; decide
  · rw [h.2]; decide

/-- C6: when the statement is a SELECT, `run_count` is requested, an adapter
is present and no limiting clause exists, the COUNT pre-flight runs first;
if it raises, the total stays 0 and the main query still executes, and since
the main execution produced a result set with no established total, the
reported total equals the number of fetched rows. -/
theorem c6_count_failure_does_not_abort
    (cfg : QueryConfig) (oracle : DbOracle) (t : DbType) (msg : String)
    (r : ExecResult)
    (hc : oracle.connect = Except.ok ())
    (hsel : py_startswith (py_upper (strip_sql_terminators cfg.sql)) "SELECT" = true)
    (hrc : cfg.runCount = true)
    (hadapter : cfg.adapter = some t)
    (hnl : has_limit_clause (py_upper (strip_sql_terminators cfg.sql)) = false)
    (hcount : oracle.exec (countSqlOf cfg) = Except.error msg)
    (hmain : oracle.exec (executedSqlOf cfg) = Except.ok r)
    (hdesc : r.hasDescription = true) :
    (queryWorkerRunBody cfg oracle false).trace = [countSqlOf cfg, executedSqlOf cfg]
    ∧ (queryWorkerRunBody cfg oracle false).signals.finished
      = some (r.rows, true, (r.rows.length : Int))
    ∧ (queryWorkerRunBody cfg oracle false).signals.errorOut = none := by
  have hdc : doCountFlag cfg (py_upper (strip_sql_terminators cfg.sql)) = true := by
    simp [doCountFlag, hsel, hrc, hadapter, hnl]
  have h0 : countTotal oracle (countSqlOf cfg) = 0 := by
    simp [countTotal, hcount]
  have hgate : queryWorkerRunBody cfg oracle false =
      { importFailed := false,
        trace := [countSqlOf cfg, executedSqlOf cfg],
        signals := { finished := some (r.rows, true, (r.rows.length : Int)),
                     errorOut := none, rowCountOut := none } } := by
    simp only [queryWorkerRunBody, connect_from_info, hc, hdc, h0, hmain, hdesc,
      Bool.and_false, Bool.false_eq_true, if_false, ite_true, ite_false, if_true]
    simp
  rw [hgate]
  exact ⟨rfl, rfl, rfl⟩

/-- C6 witness: the count runs first and fails, the paginated main query
still runs, and the total reported is the 2 fetched rows. -/
theorem c6_count_failure_does_not_abort_witness :
    (queryWorkerRunBody c6Config c6Oracle false).trace
      = ["SELECT COUNT(*) FROM (SELECT * FROM t) AS count_query",
         "SELECT * FROM t LIMIT 100"]
    ∧ (queryWorkerRunBody c6Config c6Oracle false).signals.finished
      = some ([[7], [8]], true, 2)
    ∧ (queryWorkerRunBody c6Config c6Oracle false).signals.errorOut = none := by
  have h := c6_count_failure_does_not_abort c6Config c6Oracle DbType.postgresql
    "count failed" { hasDescription := true, rows := [[7], [8]], rowcount := -1 }
    rfl (by decide) rfl rfl (by decide) rfl rfl rfl
  refine ⟨?_, ?_, h.2.2⟩
  · rw [h.1]; decide
  · rw [h.2.1]; decide

/-- C3: for the script `INSERT (1); INSERT (bad); INSERT (2)` in which only
the second statement's execute raises, the runner returns exactly three
per-statement results in execution order — success, failure, success — with
the failing statement rolled back and each successful statement committed
independently, and the result-list length equals the number of non-empty
statements. -/
theorem c3_script_per_statement_isolation
    (oracle : DbOracle) (e : String) (r1 r3 : ExecResult)
    (hc : oracle.connect = Except.ok ())
    (h1 : oracle.exec "INSERT INTO t VALUES (1)" = Except.ok r1)
    (hd1 : r1.hasDescription = false) (hrc1 : r1.rowcount = 1)
    (h2 : oracle.exec "INSERT INTO t VALUES (bad)" = Except.error e)
    (h3 : oracle.exec "INSERT INTO t VALUES (2)" = Except.ok r3)
    (hd3 : r3.hasDescription = false) (hrc3 : r3.rowcount = 1) :
    scriptWorkerRunBody oracle
        ["INSERT INTO t VALUES (1)", "INSERT INTO t VALUES (bad)",
         "INSERT INTO t VALUES (2)"] false =
      { importFailed := false,
        events := [DbEvent.execEv "INSERT INTO t VALUES (1)", DbEvent.commitEv,
                   DbEvent.execEv "INSERT INTO t VALUES (bad)", DbEvent.rollbackEv,
                   DbEvent.execEv "INSERT INTO t VALUES (2)", DbEvent.commitEv],
        allFinished := some
          [{ stmt := 1, sqlPreview := "INSERT INTO t VALUES (1)",
             fullSql := "INSERT INTO t VALUES (1)",
             status := "1 row(s) inserted", rowCount := 1, success := true,
             errMsg := none },
           { stmt := 2, sqlPreview := "INSERT INTO t VALUES (bad)",
             fullSql := "INSERT INTO t VALUES (bad)", status := "ERROR",
             rowCount := 0, success := false, errMsg := some e },
           { stmt := 3, sqlPreview := "INSERT INTO t VALUES (2)",
             fullSql := "INSERT INTO t VALUES (2)",
             status := "1 row(s) inserted", rowCount := 1, success := true,
             errMsg := none }],
        errorOut := none }
    ∧ (["INSERT INTO t VALUES (1)", "INSERT INTO t VALUES (bad)",
        "INSERT INTO t VALUES (2)"].filter
          fun s => !(py_strip s == "")).length = 3 := by
  have hp1 : py_strip "INSERT INTO t VALUES (1)" = "INSERT INTO t VALUES (1)" := by
    decide
  have hp2 : py_strip "INSERT INTO t VALUES (bad)" = "INSERT INTO t VALUES (bad)" := by
    decide
  have hp3 : py_strip "INSERT INTO t VALUES (2)" = "INSERT INTO t VALUES (2)" := by
    decide
  have hs1 : strip_sql_terminators "INSERT INTO t VALUES (1)"
      = "INSERT INTO t VALUES (1)" := by decide
  have hs2 : strip_sql_terminators "INSERT INTO t VALUES (bad)"
      = "INSERT INTO t VALUES (bad)" := by decide
  have hs3 : strip_sql_terminators "INSERT INTO t VALUES (2)"
      = "INSERT INTO t VALUES (2)" := by decide
  have hne1 : ¬ ("INSERT INTO t VALUES (1)" = "") := by decide
  have hne2 : ¬ ("INSERT INTO t VALUES (bad)" = "") := by decide
  have hne3 : ¬ ("INSERT INTO t VALUES (2)" = "") := by decide
  have H1 : scriptStatementResult oracle 0 "INSERT INTO t VALUES (1)"
      = some (scriptOkOutcome 0 "INSERT INTO t VALUES (1)" r1) := by
    simp only [scriptStatementResult, hp1, hs1]
    rw [if_neg hne1, if_neg hne1, h1]
  have H1v : scriptOkOutcome 0 "INSERT INTO t VALUES (1)" r1 =
      ({ stmt := 1, sqlPreview := "INSERT INTO t VALUES (1)",
         fullSql := "INSERT INTO t VALUES (1)", status := "1 row(s) inserted",
         rowCount := 1, success := true, errMsg := none },
       [DbEvent.execEv "INSERT INTO t VALUES (1)", DbEvent.commitEv]) := by
    simp only [scriptOkOutcome, hd1, hrc1, Bool.false_eq_true, if_false]
    decide
  have H2 : scriptStatementResult oracle 1 "INSERT INTO t VALUES (bad)"
      = some (scriptErrOutcome 1 "INSERT INTO t VALUES (bad)" e) := by
    simp only [scriptStatementResult, hp2, hs2]
    rw [if_neg hne2, if_neg hne2, h2]
  have H2v : scriptErrOutcome 1 "INSERT INTO t VALUES (bad)" e =
      ({ stmt := 2, sqlPreview := "INSERT INTO t VALUES (bad)",
         fullSql := "INSERT INTO t VALUES (bad)", status := "ERROR",
         rowCount := 0, success := false, errMsg := some e },
       [DbEvent.execEv "INSERT INTO t VALUES (bad)", DbEvent.rollbackEv]) := by
    have hprev : previewOf "INSERT INTO t VALUES (bad)"
        = "INSERT INTO t VALUES (bad)" := by decide
    simp only [scriptErrOutcome, hprev]
  have H3 : scriptStatementResult oracle 2 "INSERT INTO t VALUES (2)"
      = some (scriptOkOutcome 2 "INSERT INTO t VALUES (2)" r3) := by
    simp only [scriptStatementResult, hp3, hs3]
    rw [if_neg hne3, if_neg hne3, h3]
  have H3v : scriptOkOutcome 2 "INSERT INTO t VALUES (2)" r3 =
      ({ stmt := 3, sqlPreview := "INSERT INTO t VALUES (2)",
         fullSql := "INSERT INTO t VALUES (2)", status := "1 row(s) inserted",
         rowCount := 1, success := true, errMsg := none },
       [DbEvent.execEv "INSERT INTO t VALUES (2)", DbEvent.commitEv]) := by
    simp only [scriptOkOutcome, hd3, hrc3, Bool.false_eq_true, if_false]
    decide
  refine ⟨?_, by decide⟩
  simp only [scriptWorkerRunBody, connect_from_info, hc]
  simp only [scriptLoop, H1, H1v, H2, H2v, H3, H3v, Bool.false_eq_true, if_false]
  rfl

/-- C3 witness: the three-statement script against `c3Oracle` produces the
success/failure/success result list with commit, rollback, commit. -/
theorem c3_script_per_statement_isolation_witness :
    scriptWorkerRunBody c3Oracle
        ["INSERT INTO t VALUES (1)", "INSERT INTO t VALUES (bad)",
         "INSERT INTO t VALUES (2)"] false =
      { importFailed := false,
        events := [DbEvent.execEv "INSERT INTO t VALUES (1)", DbEvent.commitEv,
                   DbEvent.execEv "INSERT INTO t VALUES (bad)", DbEvent.rollbackEv,
                   DbEvent.execEv "INSERT INTO t VALUES (2)", DbEvent.commitEv],
        allFinished := some
          [{ stmt := 1, sqlPreview := "INSERT INTO t VALUES (1)",
             fullSql := "INSERT INTO t VALUES (1)",
             status := "1 row(s) inserted", rowCount := 1, success := true,
             errMsg := none },
           { stmt := 2, sqlPreview := "INSERT INTO t VALUES (bad)",
             fullSql := "INSERT INTO t VALUES (bad)", status := "ERROR",
             rowCount := 0, success := false, errMsg := some "duplicate key" },
           { stmt := 3, sqlPreview := "INSERT INTO t VALUES (2)",
             fullSql := "INSERT INTO t VALUES (2)",
             status := "1 row(s) inserted", rowCount := 1, success := true,
             errMsg := none }],
        errorOut := none }
    ∧ (["INSERT INTO t VALUES (1)", "INSERT INTO t VALUES (bad)",
        "INSERT INTO t VALUES (2)"].filter
          fun s => !(py_strip s == "")).length = 3 :=
  c3_script_per_statement_isolation c3Oracle "duplicate key"
    { hasDescription := false, rows := [], rowcount := 1 }
    { hasDescription := false, rows := [], rowcount := 1 }
    rfl rfl rfl rfl rfl rfl rfl rfl

/-- C10: for a destructive statement run with duplicate protection enabled
(and the production confirmation, when required, accepted), the
whitespace-normalised text is compared against the rolling history — an
exact match triggers the second confirmation — and once the statement is
about to run it is appended to the history, which never grows beyond the
last 10 entries. -/
theorem c10_duplicate_protection_history
    (sql : String) (isProd : Bool) (recent : List String)
    (prodConfirm dupConfirm : Bool)
    (hdest : is_destructive_sql sql = true)
    (hprod : isProd = true → prodConfirm = true)
    (hdup : recent.contains (py_normalize_ws sql) = true → dupConfirm = true) :
    (run_query_gate sql (some (isProd, true)) recent prodConfirm
        dupConfirm).duplicatePrompted
      = recent.contains (py_normalize_ws sql)
    ∧ (run_query_gate sql (some (isProd, true)) recent prodConfirm
        dupConfirm).proceeds = true
    ∧ (run_query_gate sql (some (isProd, true)) recent prodConfirm
        dupConfirm).history
      = (if 10 < (recent ++ [py_normalize_ws sql]).length
         then (recent ++ [py_normalize_ws sql]).drop 1
         else recent ++ [py_normalize_ws sql])
    ∧ (recent.length ≤ 10 →
        (run_query_gate sql (some (isProd, true)) recent prodConfirm
          dupConfirm).history.length ≤ 10) := by
  have hpp : (isProd && !prodConfirm) = false := by
    cases hp : isProd
    · simp
    · simp [hprod hp]
  have hdp : (recent.contains (py_normalize_ws sql) && !dupConfirm) = false := by
    cases hd : recent.contains (py_normalize_ws sql)
    · simp
    · simp [hdup hd]
  have hgate : run_query_gate sql (some (isProd, true)) recent prodConfirm
      dupConfirm =
      { proceeds := true,
        history := if 10 < (recent ++ [py_normalize_ws sql]).length
                   then (recent ++ [py_normalize_ws sql]).drop 1
                   else recent ++ [py_normalize_ws sql],
        productionPrompted := isProd,
        duplicatePrompted := recent.contains (py_normalize_ws sql) } := by
    simp only [run_query_gate, hdest, hpp, hdp, Bool.false_eq_true, if_false,
      ite_true, ite_false, if_true]
  rw [hgate]
  refine ⟨rfl, rfl, rfl, ?_⟩
  intro hlen
  by_cases hgt : 10 < (recent ++ [py_normalize_ws sql]).length
  · simp only [hgt, ite_true, if_true, List.length_drop]
    simp at hgt ⊢
    omega
  · simp only [hgt, ite_false, if_false]
    simp at hgt ⊢
    omega

/-- C10 witness: a mixed-whitespace UPDATE whose normalised text is already
in the history triggers the duplicate prompt, proceeds after confirmation,
and the history keeps at most 10 entries. -/
theorem c10_duplicate_protection_history_witness :
    (run_query_gate "UPDATE t SET x = 1  WHERE id = 2" (some (false, true))
        ["UPDATE t SET x = 1 WHERE id = 2"] false true).duplicatePrompted = true
    ∧ (run_query_gate "UPDATE t SET x = 1  WHERE id = 2" (some (false, true))
        ["UPDATE t SET x = 1 WHERE id = 2"] false true).proceeds = true
    ∧ (run_query_gate "UPDATE t SET x = 1  WHERE id = 2" (some (false, true))
        ["UPDATE t SET x = 1 WHERE id = 2"] false true).history
      = ["UPDATE t SET x = 1 WHERE id = 2", "UPDATE t SET x = 1 WHERE id = 2"]
    ∧ (run_query_gate "UPDATE t SET x = 1  WHERE id = 2" (some (false, true))
        ["UPDATE t SET x = 1 WHERE id = 2"] false true).history.length ≤ 10 := by
  have h := c10_duplicate_protection_history "UPDATE t SET x = 1  WHERE id = 2"
    false ["UPDATE t SET x = 1 WHERE id = 2"] false true
    (by decide) (by decide) (by decide)
  refine ⟨?_, h.2.1, ?_, h.2.2.2 (by decide)⟩
  · rw [h.1]; decide
  · rw [h.2.2.1]; decide

end SqlBench
